import Mathlib

/-!
Verification of the llm-resume-parser pipeline (src/parser.py).

The program is a sequential orchestration of model calls.  We embed it
shallowly: every model call is answered by an explicit oracle value
(`Outcome` / `TOutcome`), JSON values are the inductive `JValue`, the
mutable output record (a Python dict) is an association list
`List (String × JValue)`, and text munging is done with structural
`List Char` functions mirroring the Python string primitives used by the
source (`str.split`, `str.rstrip`, `str.lower`, `os.path.splitext`).
-/

namespace ResumeParser

/-- JSON-like values, the data flowing between the model and the output
record (Python dicts, lists, strings as produced by `json.loads`). -/
inductive JValue where
  | null : JValue
  | bool : Bool → JValue
  | num : Int → JValue
  | str : String → JValue
  | arr : List JValue → JValue
  | obj : List (String × JValue) → JValue

/-- The output record: a Python dict from string keys to JSON values. -/
abbrev Output := List (String × JValue)

/-- Dictionary lookup (`d[k]` / `k in d`): first binding of the key. -/
def lookup (st : Output) (k : String) : Option JValue :=
  match st with
  | [] => none
  | (k', v) :: rest => if k' = k then some v else lookup rest k

/-- Dictionary assignment `d[k] = v`: replace the binding when the key is
present, append it otherwise (Python dict semantics). -/
def setKey (st : Output) (k : String) (v : JValue) : Output :=
  match st with
  | [] => [(k, v)]
  | (k', v') :: rest => if k' = k then (k, v) :: rest else (k', v') :: setKey rest k v

/-- Top-level keys of the record, in order. -/
def keyList (st : Output) : List String := st.map (fun p => p.1)

/-- Assignment into the nested dict `d[outer][k] = v` (used for
`self.output['contact_info'][...] = ...`).  The outer value is an object in
every reachable state. -/
def setNested (st : Output) (outer k : String) (v : JValue) : Output :=
  match lookup st outer with
  | some (JValue.obj inner) => setKey st outer (JValue.obj (setKey inner k v))
  | _ => st

/-- Lookup in the nested dict `d[outer][k]`. -/
def lookupNested (st : Output) (outer k : String) : Option JValue :=
  match lookup st outer with
  | some (JValue.obj inner) => lookup inner k
  | _ => none

/-- Does the key hold an object (a nested dict)? -/
def isObjAt (st : Output) (k : String) : Bool :=
  match lookup st k with
  | some (JValue.obj _) => true
  | _ => false

/-! ### Python string primitives (structural, kernel-evaluable) -/

/-- Characters stripped by Python `str.rstrip()` with no argument: the
ASCII whitespace characters. -/
def isPySpace (c : Char) : Bool :=
  c = ' ' || c = '\t' || c = '\n' || c = '\r' || c = '\x0b' || c = '\x0c'

/-- `str.rstrip()` on a character list: drop trailing whitespace. -/
def rstripL (l : List Char) : List Char :=
  (l.reverse.dropWhile isPySpace).reverse

/-- `str.rstrip()` on a string. -/
def rstrip (s : String) : String := String.mk (rstripL s.data)

/-- ASCII lowercasing of one character (`str.lower` restricted to the
ASCII letters, all the source ever matches against). -/
def lowerChar (c : Char) : Char :=
  if 65 ≤ c.toNat ∧ c.toNat ≤ 90 then Char.ofNat (c.toNat + 32) else c

/-- `str.lower()` on a character list. -/
def lowerL (l : List Char) : List Char := l.map lowerChar

/-- Substring test `needle in hay` on character lists. -/
def containsSub (needle : List Char) : List Char → Bool
  | [] => needle.isEmpty
  | c :: rest => needle.isPrefixOf (c :: rest) || containsSub needle rest

/-- Python `s.split(sep)` for a one-character separator: splits at every
occurrence, keeping empty fields (`"".split(c) = [""]`). -/
def splitOnChar (sep : Char) : List Char → List (List Char)
  | [] => [[]]
  | c :: rest =>
    match splitOnChar sep rest with
    | [] => [[]]
    | h :: t => if c = sep then [] :: h :: t else (c :: h) :: t

/-- `s.split(sep)` on strings. -/
def pySplit (sep : Char) (s : String) : List String :=
  (splitOnChar sep s.data).map String.mk

/-- Basename of a path (the part after the last `/`), as `os.path` uses. -/
def basenameL (l : List Char) : List Char :=
  (l.reverse.takeWhile (fun c => c ≠ '/')).reverse

/-- `os.path.splitext(path)[1]`: the extension starting at the last dot of
the basename, empty when the basename has no dot or only leading dots. -/
def splitextExt (path : String) : String :=
  let base := basenameL path.data
  let rev := base.reverse
  let sufRev := rev.takeWhile (fun c => c ≠ '.')
  match rev.dropWhile (fun c => c ≠ '.') with
  | [] => ""
  | _ :: preRev =>
    if preRev.any (fun c => c ≠ '.') then String.mk ('.' :: sufRev.reverse) else ""

/-- `pathlib.Path(path).stem`: basename without its suffix; the suffix
exists when the last dot of the basename is neither first nor last. -/
def pathStem (path : String) : String :=
  let base := basenameL path.data
  let rev := base.reverse
  let sufRev := rev.takeWhile (fun c => c ≠ '.')
  match rev.dropWhile (fun c => c ≠ '.') with
  | [] => String.mk base
  | _ :: preRev =>
    if preRev ≠ [] ∧ sufRev ≠ [] then String.mk preRev.reverse else String.mk base

/-! ### Leaf collaborators absent from src/ -/

/-- Modelled from the spec: `output_template` lives in `utils.py`, which is
not under src/.  The spec's data model fixes the record's shape: candidate
name, job title, bio, contact info (location, phone, email list, personal
URL list), skills list, professional-development list, other-info field,
education list, work-experience list — each initialized to an
empty/default value.  Key names follow their uses in src/parser.py. -/
def output_template : Output :=
  [ ("candidate_name", JValue.str ""),
    ("job_title", JValue.str ""),
    ("bio", JValue.str ""),
    ("contact_info", JValue.obj
      [ ("location", JValue.str ""),
        ("phone_number", JValue.str ""),
        ("email_address", JValue.arr []),
        ("personal_urls", JValue.arr []) ]),
    ("skills", JValue.arr []),
    ("professional_development", JValue.arr []),
    ("other_info", JValue.str ""),
    ("education", JValue.arr []),
    ("work_output", JValue.arr []) ]

/-- Modelled from the spec: `extract_emails` lives in `utils.py`, not under
src/; the spec says contact emails are pulled out of the raw resume text by
regex pattern matching.  We model it as an executable scan of the text for
tokens containing an `@`; all that matters to the claims is that it is a
pure function of the resume text. -/
def extract_emails (text : String) : List String :=
  ((splitOnChar ' ' text.data).filter (fun w => w.contains '@')).map String.mk

/-- Modelled from the spec: `extract_github_and_linkedin_urls` lives in
`utils.py`, not under src/; the spec says social-profile URLs are pulled
out of the raw text by regex.  We model it as a scan for tokens mentioning
github.com or linkedin.com; again only purity in the resume text matters. -/
def extract_github_and_linkedin_urls (text : String) : List String :=
  ((splitOnChar ' ' text.data).filter
    (fun w => containsSub "github.com".data w || containsSub "linkedin.com".data w)).map String.mk

/-! ### Oracles for model calls and the failure taxonomy -/

/-- Outcome of one primary model call followed by its immediate parsing:
the call may return a parsed value, raise `openai.APITimeoutError`, leave
`json.loads` (or the chain's output parser) to fail, or raise some other
API error. -/
inductive Outcome (α : Type) where
  | ok : α → Outcome α
  | timeout : Outcome α
  | malformed : Outcome α
  | apiError : Outcome α
deriving DecidableEq

/-- Outcome of a free-text call (`json_mode=False`): no JSON parsing
happens, so the only failures are timeout and other API errors. -/
inductive TOutcome where
  | ok : String → TOutcome
  | timeout : TOutcome
  | apiError : TOutcome
deriving DecidableEq

/-- An uncaught Python exception terminating the run. -/
inductive Fatal where
  | timeout : Fatal
  | malformed : Fatal
  | apiError : Fatal
  | keyError : Fatal
deriving DecidableEq

/-- Section-level events of one run, in source order of `process_file`. -/
inductive Event where
  | primaryBasic : Event
  | primaryWork : Event
  | fallbackWork : Event
  | primarySkills : Event
  | fallbackSkills : Event
  | primaryEducation : Event
  | fallbackEducation : Event
deriving DecidableEq

/-- Position of each section event in the fixed source order. -/
def rank : Event → Nat
  | Event.primaryBasic => 0
  | Event.primaryWork => 1
  | Event.fallbackWork => 2
  | Event.primarySkills => 3
  | Event.fallbackSkills => 4
  | Event.primaryEducation => 5
  | Event.fallbackEducation => 6

/-- Individual API calls made by the work-experience fallback. -/
inductive Call where
  | enumCall : Call
  | structCall : String → String → Call
deriving DecidableEq

/-- The environment of one run: what each model call would return.
JSON-mode responses are modelled post-`json.loads` as objects (key/value
lists), schema-guided chain responses as lists of serialized objects, and
free-text responses as strings; `workStruct n` answers the n-th
per-company JSON call of the work-experience fallback. -/
structure Oracle where
  basic : Outcome (List (String × JValue))
  work : Outcome (List JValue)
  workEnum : TOutcome
  workStruct : Nat → Outcome JValue
  skills : Outcome (List (String × JValue))
  skillsFallback : TOutcome
  education : Outcome (List JValue)
  educationFallback : TOutcome

/-! ### The extraction steps (from src/parser.py) -/

/-- The try-block of `extract_basic_info`, lines 103-108: assign
`candidate_name`, `job_title`, `bio` in order from keys `name`,
`job_title`, `bio`; a `KeyError` anywhere in it is swallowed by the
`except KeyError: pass`, so assignment stops at the first absent key. -/
def basic_try_block (kvs : List (String × JValue)) (st : Output) : Output :=
  match lookup kvs "name" with
  | none => st
  | some v =>
    let st := setKey st "candidate_name" v
    match lookup kvs "job_title" with
    | none => st
    | some v2 =>
      let st := setKey st "job_title" v2
      match lookup kvs "bio" with
      | none => st
      | some v3 => setKey st "bio" v3

/-- The guarded optional writes of `extract_basic_info`, lines 110-113:
`location` and `phone` are copied into the contact dict when present. -/
def basic_optional_fields (kvs : List (String × JValue)) (st : Output) : Output :=
  let st := match lookup kvs "location" with
    | some v => setNested st "contact_info" "location" v
    | none => st
  match lookup kvs "phone" with
  | some v => setNested st "contact_info" "phone_number" v
  | none => st

/-- `ResumeManager.extract_basic_info`, lines 96-116, after the model call
returned the object `kvs`: the try-block, the optional fields, and
finally the e-mail and URL lists always recomputed from the resume text. -/
def extract_basic_info (resume : String) (kvs : List (String × JValue)) (st : Output) : Output :=
  let st := basic_optional_fields kvs (basic_try_block kvs st)
  let st := setNested st "contact_info" "email_address"
    (JValue.arr ((extract_emails resume).map JValue.str))
  setNested st "contact_info" "personal_urls"
    (JValue.arr ((extract_github_and_linkedin_urls resume).map JValue.str))

/-- `ResumeManager.extract_skills`, lines 118-129, after the call returned
`kvs`: `output['skills']` is a required key (its absence raises an uncaught
`KeyError`); `professional_development` and `other` are optional. -/
def extract_skills (kvs : List (String × JValue)) (st : Output) : Except Fatal Output :=
  match lookup kvs "skills" with
  | none => Except.error Fatal.keyError
  | some v =>
    let st := setKey st "skills" v
    let st := match lookup kvs "professional_development" with
      | some w => setKey st "professional_development" w
      | none => st
    let st := match lookup kvs "other" with
      | some w => setKey st "other_info" w
      | none => st
    Except.ok st

/-- `ResumeManager.fallback_extract_skills`, lines 131-137: the raw
free-text response is stored verbatim in `output['skills']`. -/
def fallback_extract_skills (raw : String) (st : Output) : Output :=
  setKey st "skills" (JValue.str raw)

/-- `ResumeManager.extract_education`, lines 139-143: the schema-guided
results are serialized into `output['education']`. -/
def extract_education (objs : List JValue) (st : Output) : Output :=
  setKey st "education" (JValue.arr objs)

/-- `ResumeManager.fallback_extract_education`, lines 145-148: the raw
free-text response is stored verbatim in `output['education']`. -/
def fallback_extract_education (raw : String) (st : Output) : Output :=
  setKey st "education" (JValue.str raw)

/-- `ResumeManager.extract_work_experience`, lines 150-154: the
schema-guided results are serialized into `output['work_output']`. -/
def extract_work_experience (objs : List JValue) (st : Output) : Output :=
  setKey st "work_output" (JValue.arr objs)

/-- `self.output['work_output'].append(parsed_output)` (line 175): append
one parsed entry to the work-experience list in place. -/
def appendWork (st : Output) (v : JValue) : Output :=
  match lookup st "work_output" with
  | some (JValue.arr xs) => setKey st "work_output" (JValue.arr (xs ++ [v]))
  | _ => st

/-- Does the enumerated line contain `"answer"` case-insensitively
(`"answer" in line.lower()`, line 161)? -/
def containsAnswer (line : String) : Bool :=
  containsSub "answer".data (lowerL line.data)

/-- The loop body of `fallback_extract_work_experience`, lines 160-175:
for each line of the enumeration response, skip instruction echoes and
empty company fields, default a missing role to `""`, then make one
JSON-mode call per surviving line and append its parsed result; any
exception of that call (timeout included) is uncaught.  `i` counts the
structured calls made so far, indexing into the oracle. -/
def fallback_we_core (oS : Nat → Outcome JValue) :
    List String → Nat → Output → Except Fatal Output × List Call
  | [], _, st => (Except.ok st, [])
  | line :: rest, i, st =>
    if containsAnswer line then fallback_we_core oS rest i st
    else
      let entry := pySplit ',' line
      let company := rstrip (entry.head?.getD "")
      if company = "" then fallback_we_core oS rest i st
      else
        let role := match entry[1]? with
          | some r => rstrip r
          | none => ""
        match oS i with
        | Outcome.ok v =>
          let r := fallback_we_core oS rest (i + 1) (appendWork st v)
          (r.1, Call.structCall company role :: r.2)
        | Outcome.timeout => (Except.error Fatal.timeout, [Call.structCall company role])
        | Outcome.malformed => (Except.error Fatal.malformed, [Call.structCall company role])
        | Outcome.apiError => (Except.error Fatal.apiError, [Call.structCall company role])

/-- `ResumeManager.fallback_extract_work_experience`, lines 156-175: one
free-text enumeration call, then the per-line loop.  Returns the final
state (or the uncaught exception) together with the list of calls made. -/
def fallback_extract_work_experience (enum : TOutcome) (oS : Nat → Outcome JValue)
    (st : Output) : Except Fatal Output × List Call :=
  match enum with
  | TOutcome.ok text =>
    let r := fallback_we_core oS (pySplit '\n' text) 0 st
    (r.1, Call.enumCall :: r.2)
  | TOutcome.timeout => (Except.error Fatal.timeout, [Call.enumCall])
  | TOutcome.apiError => (Except.error Fatal.apiError, [Call.enumCall])

/-! ### The per-section drivers of `process_file` (lines 41-59) -/

/-- `self.extract_basic_info()`: no try/except around it, so any failure
(timeout included) is fatal. -/
def basicSection (o : Oracle) (resume : String) (st : Output) :
    Except Fatal Output × List Event :=
  match o.basic with
  | Outcome.ok kvs => (Except.ok (extract_basic_info resume kvs st), [Event.primaryBasic])
  | Outcome.timeout => (Except.error Fatal.timeout, [Event.primaryBasic])
  | Outcome.malformed => (Except.error Fatal.malformed, [Event.primaryBasic])
  | Outcome.apiError => (Except.error Fatal.apiError, [Event.primaryBasic])

/-- `try: extract_work_experience() except APITimeoutError: fallback`. -/
def workSection (o : Oracle) (st : Output) : Except Fatal Output × List Event :=
  match o.work with
  | Outcome.ok objs => (Except.ok (extract_work_experience objs st), [Event.primaryWork])
  | Outcome.timeout =>
    ((fallback_extract_work_experience o.workEnum o.workStruct st).1,
      [Event.primaryWork, Event.fallbackWork])
  | Outcome.malformed => (Except.error Fatal.malformed, [Event.primaryWork])
  | Outcome.apiError => (Except.error Fatal.apiError, [Event.primaryWork])

/-- `try: extract_skills() except APITimeoutError: fallback`. -/
def skillsSection (o : Oracle) (st : Output) : Except Fatal Output × List Event :=
  match o.skills with
  | Outcome.ok kvs => (extract_skills kvs st, [Event.primarySkills])
  | Outcome.timeout =>
    match o.skillsFallback with
    | TOutcome.ok raw =>
      (Except.ok (fallback_extract_skills raw st), [Event.primarySkills, Event.fallbackSkills])
    | TOutcome.timeout =>
      (Except.error Fatal.timeout, [Event.primarySkills, Event.fallbackSkills])
    | TOutcome.apiError =>
      (Except.error Fatal.apiError, [Event.primarySkills, Event.fallbackSkills])
  | Outcome.malformed => (Except.error Fatal.malformed, [Event.primarySkills])
  | Outcome.apiError => (Except.error Fatal.apiError, [Event.primarySkills])

/-- `try: extract_education() except APITimeoutError: fallback`. -/
def eduSection (o : Oracle) (st : Output) : Except Fatal Output × List Event :=
  match o.education with
  | Outcome.ok objs => (Except.ok (extract_education objs st), [Event.primaryEducation])
  | Outcome.timeout =>
    match o.educationFallback with
    | TOutcome.ok raw =>
      (Except.ok (fallback_extract_education raw st),
        [Event.primaryEducation, Event.fallbackEducation])
    | TOutcome.timeout =>
      (Except.error Fatal.timeout, [Event.primaryEducation, Event.fallbackEducation])
    | TOutcome.apiError =>
      (Except.error Fatal.apiError, [Event.primaryEducation, Event.fallbackEducation])
  | Outcome.malformed => (Except.error Fatal.malformed, [Event.primaryEducation])
  | Outcome.apiError => (Except.error Fatal.apiError, [Event.primaryEducation])

/-- Straight-line sequencing under Python exceptions: when the first
statement raises, the rest of the body never runs. -/
def seqSection (first : Except Fatal Output × List Event)
    (next : Output → Except Fatal Output × List Event) :
    Except Fatal Output × List Event :=
  match first with
  | (Except.error e, evs) => (Except.error e, evs)
  | (Except.ok st, evs) =>
    let r := next st
    (r.1, evs ++ r.2)

/-- `ResumeManager.process_file`, lines 41-59: basic info (no guard), then
work experience, skills, education, each guarded by
`except openai.APITimeoutError` that invokes the section's fallback. -/
def process_file (o : Oracle) (resume : String) (st : Output) :
    Except Fatal Output × List Event :=
  seqSection (basicSection o resume st) (fun st1 =>
    seqSection (workSection o st1) (fun st2 =>
      seqSection (skillsSection o st2) (fun st3 =>
        eduSection o st3)))

/-! ### Document loader (`get_resume_content`, lines 178-199) -/

/-- What the two external readers would see in the input file: the
per-page extracted text of `PyPDF2.PdfReader` and the per-paragraph text
of `docx.Document`. -/
structure InputFile where
  pdfPages : List String
  docxParagraphs : List String

/-- The PDF branch, lines 181-190: one accumulator over the pages; every
line of a page's text is right-stripped and, when non-empty, appended
followed by a newline. -/
def pdfContent (pages : List String) : String :=
  pages.foldl (fun content text =>
    (pySplit '\n' text).foldl (fun c l =>
      let l := rstrip l
      if l = "" then c else c ++ l ++ "\n") content) ""

/-- The DOCX/DOC branch, lines 191-195: every paragraph's text followed by
a newline. -/
def docxContent (paragraphs : List String) : String :=
  paragraphs.foldl (fun c p => c ++ p ++ "\n") ""

/-- `get_resume_content`, lines 178-199: derive the extension from the
path when the argument is absent or empty (Python falsy test), then
dispatch on it; an unrecognized extension reaches
`sys.exit(f"Unsupported file type ...")`, modelled as the error case. -/
def get_resume_content (f : InputFile) (file : String) (extension : Option String) :
    Except String String :=
  let ext := match extension with
    | none => splitextExt file
    | some e => if e = "" then splitextExt file else e
  if ext = ".pdf" then Except.ok (pdfContent f.pdfPages)
  else if ext = ".docx" ∨ ext = ".doc" then Except.ok (docxContent f.docxParagraphs)
  else Except.error ("Unsupported file type " ++ ext)

/-! ### The `__main__` driver (lines 202-219) -/

/-- How one whole process invocation ends: `sys.exit(message)` from the
loader, an uncaught exception from `process_file`, or normal completion
with the record and the output file written at the derived path. -/
inductive RunResult where
  | exited : String → RunResult
  | crashed : Fatal → RunResult
  | completed : Output → String → RunResult

/-- Process exit status: `sys.exit(str)` and an uncaught exception both
exit non-zero; normal completion exits 0. -/
def exitCode : RunResult → Nat
  | RunResult.exited _ => 1
  | RunResult.crashed _ => 1
  | RunResult.completed _ _ => 0

/-- The `__main__` block: construct the `ResumeManager` (whose `__init__`
loads the resume with no explicit extension), run `process_file`, then
write `parsed_outputs/{stem}_output.json`.  Returns the result paired with
the section events that ran. -/
def mainRun (f : InputFile) (path : String) (o : Oracle) : RunResult × List Event :=
  match get_resume_content f path none with
  | Except.error msg => (RunResult.exited msg, [])
  | Except.ok resume =>
    let r := process_file o resume output_template
    match r.1 with
    | Except.error e => (RunResult.crashed e, r.2)
    | Except.ok out =>
      (RunResult.completed out ("parsed_outputs/" ++ pathStem path ++ "_output.json"), r.2)

/-! ### JSON string serialization (the fragment of Python's `json` module
relevant to claim C7: how a string field survives dump/load) -/

/-- Hex digit character for a value below 16, lowercase as `json.dump`
emits. -/
def hexDigit (n : Nat) : Char :=
  if n < 10 then Char.ofNat (48 + n) else Char.ofNat (87 + n)

/-- Value of one hex digit character, upper or lower case. -/
def hexVal (c : Char) : Option Nat :=
  if 48 ≤ c.toNat ∧ c.toNat ≤ 57 then some (c.toNat - 48)
  else if 97 ≤ c.toNat ∧ c.toNat ≤ 102 then some (c.toNat - 87)
  else if 65 ≤ c.toNat ∧ c.toNat ≤ 70 then some (c.toNat - 55)
  else none

/-- `json.dump` escaping of one character inside a string literal: quote
and backslash get a backslash escape, control characters a `\u00XX`
escape, everything else passes through. -/
def encodeChar (c : Char) : List Char :=
  if c = '"' then ['\\', '"']
  else if c = '\\' then ['\\', '\\']
  else if c.toNat < 32 then
    ['\\', 'u', '0', '0', hexDigit (c.toNat / 16), hexDigit (c.toNat % 16)]
  else [c]

/-- Serialization of a string value: quoted, with every character
escaped as `json.dump` does. -/
def encodeJsonString (s : String) : String :=
  String.mk ('"' :: ((s.data.map encodeChar).flatten ++ ['"']))

mutual

/-- `json.loads` on the body of a string literal: consume characters and
escapes until the closing quote, which must end the input. -/
def decodeBody : List Char → Option (List Char)
  | [] => none
  | c :: rest =>
    if c = '"' then (if rest.isEmpty then some [] else none)
    else if c = '\\' then decodeEsc rest
    else (decodeBody rest).map (fun cs => c :: cs)

/-- Decoding after a backslash: a quote, backslash or `uXXXX` escape. -/
def decodeEsc : List Char → Option (List Char)
  | [] => none
  | e :: rest2 =>
    if e = '"' then (decodeBody rest2).map (fun cs => '"' :: cs)
    else if e = '\\' then (decodeBody rest2).map (fun cs => '\\' :: cs)
    else if e = 'u' then decodeHex rest2
    else none

/-- Decoding the four hex digits of a `uXXXX` escape. -/
def decodeHex : List Char → Option (List Char)
  | a :: b :: c2 :: d :: rest3 =>
    match hexVal a, hexVal b, hexVal c2, hexVal d with
    | some ha, some hb, some hc, some hd =>
      (decodeBody rest3).map
        (fun cs => Char.ofNat (((ha * 16 + hb) * 16 + hc) * 16 + hd) :: cs)
    | _, _, _, _ => none
  | _ => none

end

/-- `json.loads` of a serialized string value. -/
def parseJsonString (s : String) : Option String :=
  match s.data with
  | '"' :: body => (decodeBody body).map String.mk
  | _ => none

/-! ### The claim-side (spec-worded) companions -/

/-- Concatenation of a list of strings, in order. -/
def strJoin : List String → String
  | [] => ""
  | s :: l => s ++ strJoin l

/-- Spec wording of the PDF branch: page by page, keep the non-empty
right-trimmed lines, each followed by a single newline, and concatenate. -/
def pdfContentSpec (pages : List String) : String :=
  strJoin (pages.map (fun text =>
    strJoin ((((pySplit '\n' text).map rstrip).filter (fun l => l ≠ "")).map
      (fun l => l ++ "\n"))))

/-- Spec wording of the DOCX branch: each paragraph's text with a trailing
newline, concatenated in order. -/
def docxContentSpec (paragraphs : List String) : String :=
  strJoin (paragraphs.map (fun p => p ++ "\n"))

/-- First comma-separated field of a line. -/
def firstField (line : String) : String := (pySplit ',' line).head?.getD ""

/-- Second comma-separated field of a line, right-stripped, defaulting to
the empty role when the line has no second field. -/
def roleField (line : String) : String :=
  match (pySplit ',' line)[1]? with
  | some r => rstrip r
  | none => ""

/-- Claim wording: a line of the enumeration response survives when it
does not contain "answer" case-insensitively and its first field is
non-empty after trailing-whitespace removal. -/
def lineKeep (line : String) : Bool :=
  !containsAnswer line && rstrip (firstField line) ≠ ""

/-- Claim wording of the work-experience fallback input: the surviving
lines as (company, role) pairs, in order. -/
def validLinesSpec (text : String) : List (String × String) :=
  ((pySplit '\n' text).filter lineKeep).map
    (fun l => (rstrip (firstField l), roleField l))

/-- A fully cooperative environment, used to exercise the pipeline on
concrete runs. -/
def oracleAllOk : Oracle where
  basic := Outcome.ok []
  work := Outcome.ok []
  workEnum := TOutcome.ok ""
  workStruct := fun _ => Outcome.ok (JValue.obj [])
  skills := Outcome.ok [("skills", JValue.arr [])]
  skillsFallback := TOutcome.ok ""
  education := Outcome.ok []
  educationFallback := TOutcome.ok ""

/-- An environment that answers the basic-info call with the given
outcome and cooperates everywhere else. -/
def oracleWithBasic (b : Outcome (List (String × JValue))) : Oracle :=
  ⟨b, Outcome.ok [], TOutcome.ok "", fun _ => Outcome.ok (JValue.obj []),
    Outcome.ok [("skills", JValue.arr [])], TOutcome.ok "", Outcome.ok [], TOutcome.ok ""⟩

/-- An environment whose primary work-experience call times out and whose
other calls succeed. -/
def oracleWorkTimeout : Oracle :=
  ⟨Outcome.ok [], Outcome.timeout, TOutcome.ok "Acme, Engineer",
    fun _ => Outcome.ok (JValue.obj []),
    Outcome.ok [("skills", JValue.arr [])], TOutcome.ok "", Outcome.ok [], TOutcome.ok ""⟩

/-! ### Helper lemmas -/

theorem str_append_assoc (a b c : String) : a ++ b ++ c = a ++ (b ++ c) :=
  String.ext (by simp [String.data_append])

theorem str_append_empty (a : String) : a ++ "" = a :=
  String.ext (by simp [String.data_append])

theorem str_empty_append (a : String) : "" ++ a = a :=
  String.ext (by simp [String.data_append])

theorem lookup_setKey_self (st : Output) (k : String) (v : JValue) :
    lookup (setKey st k v) k = some v := by
  induction st with
  | nil => simp [setKey, lookup]
  | cons p rest ih =>
    by_cases h : p.1 = k
    · simp [setKey, h, lookup]
    · simp [setKey, h, lookup, ih]

theorem lookup_setKey_ne (st : Output) (k k' : String) (v : JValue) (h : k' ≠ k) :
    lookup (setKey st k v) k' = lookup st k' := by
  have hk : ¬ k = k' := fun e => h (Eq.symm e)
  induction st with
  | nil => simp [setKey, lookup, hk]
  | cons p rest ih =>
    by_cases hp : p.1 = k
    · simp [setKey, hp, lookup, hk]
    · simp [setKey, hp, lookup, ih]

theorem keyList_cons (p : String × JValue) (rest : Output) :
    keyList (p :: rest) = p.1 :: keyList rest := rfl

theorem mem_keyList_of_lookup (st : Output) (k : String) (v : JValue)
    (h : lookup st k = some v) : k ∈ keyList st := by
  induction st with
  | nil => simp [lookup] at h
  | cons p rest ih =>
    rw [keyList_cons]
    by_cases hp : p.1 = k
    · exact hp ▸ List.mem_cons_self _ _
    · simp only [lookup, hp, if_false] at h
      exact List.mem_cons_of_mem _ (ih h)

theorem keyList_setKey_mem (st : Output) (k : String) (v : JValue)
    (h : k ∈ keyList st) : keyList (setKey st k v) = keyList st := by
  induction st with
  | nil => simp [keyList] at h
  | cons p rest ih =>
    by_cases hp : p.1 = k
    · simp [setKey, hp, keyList]
    · have hmem : k ∈ keyList rest := by
        rw [keyList_cons] at h
        cases List.mem_cons.mp h with
        | inl h1 => exact absurd h1.symm hp
        | inr h1 => exact h1
      simp [setKey, hp, keyList_cons, ih hmem]

theorem keyList_setNested (st : Output) (outer k : String) (v : JValue) :
    keyList (setNested st outer k v) = keyList st := by
  unfold setNested
  cases h : lookup st outer with
  | none => rfl
  | some w =>
    cases w with
    | obj inner => exact keyList_setKey_mem _ _ _ (mem_keyList_of_lookup _ _ _ h)
    | null => rfl
    | bool b => rfl
    | num n => rfl
    | str s => rfl
    | arr xs => rfl

theorem keyList_appendWork (st : Output) (v : JValue) :
    keyList (appendWork st v) = keyList st := by
  unfold appendWork
  cases h : lookup st "work_output" with
  | none => rfl
  | some w =>
    cases w with
    | arr xs => exact keyList_setKey_mem _ _ _ (mem_keyList_of_lookup _ _ _ h)
    | null => rfl
    | bool b => rfl
    | num n => rfl
    | str s => rfl
    | obj kvs => rfl

/-! Folding with string concatenation is joining. -/

theorem foldl_append_strJoin (h : String → String) (l : List String) (init : String) :
    l.foldl (fun c x => c ++ h x) init = init ++ strJoin (l.map h) := by
  induction l generalizing init with
  | nil => simp [strJoin, str_append_empty]
  | cons x l ih => simp [List.foldl_cons, strJoin, ih, str_append_assoc]

theorem pdf_page_foldl (lines : List String) (init : String) :
    lines.foldl (fun c l =>
        let l' := rstrip l
        if l' = "" then c else c ++ l' ++ "\n") init
      = init ++ strJoin (((lines.map rstrip).filter (fun l => l ≠ "")).map
          (fun l => l ++ "\n")) := by
  induction lines generalizing init with
  | nil => simp [strJoin, str_append_empty]
  | cons x l ih =>
    rw [List.foldl_cons]
    by_cases hx : rstrip x = ""
    · rw [show (let l' := rstrip x
            if l' = "" then init else init ++ l' ++ "\n") = init from by simp [hx]]
      rw [ih]
      congr 2
      simp [List.filter_cons, hx]
    · rw [show (let l' := rstrip x
            if l' = "" then init else init ++ l' ++ "\n") = init ++ rstrip x ++ "\n" from by
          simp [hx]]
      rw [ih]
      have hfil : ((rstrip x :: l.map rstrip).filter (fun s => s ≠ "")).map
          (fun s => s ++ "\n")
          = (rstrip x ++ "\n") :: ((l.map rstrip).filter (fun s => s ≠ "")).map
              (fun s => s ++ "\n") := by
        simp [List.filter_cons, hx]
      rw [List.map_cons, hfil, strJoin]
      simp [str_append_assoc]

/-! ### C9 — document loader content -/

/-- Claim C9: the PDF loader returns, page by page, the concatenation of
the non-empty right-trimmed lines of each page's text, each followed by a
single newline; the DOCX/DOC loader returns each paragraph's text followed
by a newline, in document order. -/
theorem claim_C9_loader_content :
    (∀ pages : List String, pdfContent pages = pdfContentSpec pages)
    ∧ (∀ paragraphs : List String, docxContent paragraphs = docxContentSpec paragraphs) := by
  constructor
  · intro pages
    unfold pdfContent pdfContentSpec
    have step : ∀ (content : String) (text : String),
        (pySplit '\n' text).foldl (fun c l =>
            let l' := rstrip l
            if l' = "" then c else c ++ l' ++ "\n") content
          = content ++ strJoin ((((pySplit '\n' text).map rstrip).filter
              (fun l => l ≠ "")).map (fun l => l ++ "\n")) := by
      intro content text
      exact pdf_page_foldl _ _
    calc pages.foldl (fun content text =>
            (pySplit '\n' text).foldl (fun c l =>
              let l' := rstrip l
              if l' = "" then c else c ++ l' ++ "\n") content) ""
        = pages.foldl (fun content text =>
            content ++ strJoin ((((pySplit '\n' text).map rstrip).filter
              (fun l => l ≠ "")).map (fun l => l ++ "\n"))) "" := by
          apply List.foldl_ext
          intro c x _
          exact step c x
      _ = "" ++ strJoin (pages.map (fun text =>
            strJoin ((((pySplit '\n' text).map rstrip).filter
              (fun l => l ≠ "")).map (fun l => l ++ "\n")))) :=
          foldl_append_strJoin _ _ _
      _ = _ := str_empty_append _
  · intro paragraphs
    unfold docxContent docxContentSpec
    calc paragraphs.foldl (fun c p => c ++ p ++ "\n") ""
        = paragraphs.foldl (fun c p => c ++ (p ++ "\n")) "" := by
          apply List.foldl_ext
          intro c x _
          exact str_append_assoc _ _ _
      _ = "" ++ strJoin (paragraphs.map (fun p => p ++ "\n")) := foldl_append_strJoin _ _ _
      _ = _ := str_empty_append _


/-! ### C10 — case-sensitive extension dispatch -/

/-- Claim C10: the loader compares the extension exactly and
case-sensitively against `.pdf`, `.docx`, `.doc`; an extension that
matches one of them only up to letter case is rejected as unsupported. -/
theorem claim_C10_case_sensitive_dispatch (f : InputFile) (path ext : String)
    (hlow : String.mk (lowerL ext.data) ∈ ([".pdf", ".docx", ".doc"] : List String))
    (hne : ext ∉ ([".pdf", ".docx", ".doc"] : List String)) :
    get_resume_content f path (some ext)
      = Except.error ("Unsupported file type " ++ ext) := by
  have h1 : ¬ ext = ".pdf" := fun e => hne (by rw [e]; simp)
  have h2 : ¬ ext = ".docx" := fun e => hne (by rw [e]; simp)
  have h3 : ¬ ext = ".doc" := fun e => hne (by rw [e]; simp)
  have h0 : ¬ ext = "" := by
    intro e
    rw [e] at hlow
    simp [lowerL] at hlow
  unfold get_resume_content
  simp [h0, h1, h2, h3]

/-- Witness for C10 at the concrete extension `.PDF`. -/
theorem claim_C10_witness :
    get_resume_content ⟨[], []⟩ "resume" (some ".PDF")
      = Except.error ("Unsupported file type " ++ ".PDF") :=
  claim_C10_case_sensitive_dispatch ⟨[], []⟩ "resume" ".PDF" (by decide) (by decide)

/-! ### C5 — unsupported extension terminates the run -/

/-- Claim C5: when the input's extension (explicit, or derived from the
path) is unsupported, the process terminates with the descriptive
`Unsupported file type` message and exit status 1, with no extraction
call made and no output file produced (the run result is `exited`, which
carries no output artifact). -/
theorem claim_C5_unsupported_extension_terminates (f : InputFile) (path : String) (o : Oracle)
    (h : splitextExt path ∉ ([".pdf", ".docx", ".doc"] : List String)) :
    mainRun f path o
        = (RunResult.exited ("Unsupported file type " ++ splitextExt path), [])
    ∧ exitCode (mainRun f path o).1 = 1
    ∧ (∀ ext : String, ext ∉ ([".pdf", ".docx", ".doc"] : List String) → ext ≠ "" →
        get_resume_content f path (some ext)
          = Except.error ("Unsupported file type " ++ ext)) := by
  have h1 : ¬ splitextExt path = ".pdf" := fun e => h (by rw [e]; simp)
  have h2 : ¬ splitextExt path = ".docx" := fun e => h (by rw [e]; simp)
  have h3 : ¬ splitextExt path = ".doc" := fun e => h (by rw [e]; simp)
  have hload : get_resume_content f path none
      = Except.error ("Unsupported file type " ++ splitextExt path) := by
    unfold get_resume_content
    simp [h1, h2, h3]
  refine ⟨?_, ?_, ?_⟩
  · unfold mainRun
    rw [hload]
  · unfold mainRun
    rw [hload]
    rfl
  · intro ext hnm hne
    have g1 : ¬ ext = ".pdf" := fun e => hnm (by rw [e]; simp)
    have g2 : ¬ ext = ".docx" := fun e => hnm (by rw [e]; simp)
    have g3 : ¬ ext = ".doc" := fun e => hnm (by rw [e]; simp)
    unfold get_resume_content
    simp [hne, g1, g2, g3]

/-- Witness for C5 at the concrete path `resume.txt`. -/
theorem claim_C5_witness :
    mainRun ⟨[], []⟩ "resume.txt" oracleAllOk
        = (RunResult.exited ("Unsupported file type " ++ splitextExt "resume.txt"), [])
    ∧ get_resume_content ⟨[], []⟩ "resume.txt" (some ".md")
        = Except.error ("Unsupported file type " ++ ".md") := by
  have h := claim_C5_unsupported_extension_terminates ⟨[], []⟩ "resume.txt" oracleAllOk (by decide)
  exact ⟨h.1, h.2.2 ".md" (by decide) (by decide)⟩

/-! ### C7 — fallback skills/education stored as raw strings -/

theorem hexVal_hexDigit : ∀ n : Fin 16, hexVal (hexDigit n.val) = some n.val := by
  decide

theorem decodeBody_encode (cs : List Char) :
    decodeBody ((cs.map encodeChar).flatten ++ ['"']) = some cs := by
  induction cs with
  | nil => rfl
  | cons c cs ih =>
    rw [List.map_cons, List.flatten_cons, List.append_assoc]
    by_cases h1 : c = '"'
    · subst h1
      rw [show encodeChar '"' = ['\\', '"'] from rfl]
      rw [List.cons_append, List.cons_append, decodeBody, decodeEsc]
      simp [ih]
    · by_cases h2 : c = '\\'
      · subst h2
        rw [show encodeChar '\\' = ['\\', '\\'] from rfl]
        rw [List.cons_append, List.cons_append, decodeBody, decodeEsc]
        simp [ih]
      · by_cases h3 : c.toNat < 32
        · have hd1 : hexVal (hexDigit (c.toNat / 16)) = some (c.toNat / 16) :=
            hexVal_hexDigit ⟨c.toNat / 16, by omega⟩
          have hd2 : hexVal (hexDigit (c.toNat % 16)) = some (c.toNat % 16) :=
            hexVal_hexDigit ⟨c.toNat % 16, by omega⟩
          have hz : hexVal '0' = some 0 := rfl
          have hval : ((0 * 16 + 0) * 16 + c.toNat / 16) * 16 + c.toNat % 16 = c.toNat := by
            omega
          rw [show encodeChar c = ['\\', 'u', '0', '0',
              hexDigit (c.toNat / 16), hexDigit (c.toNat % 16)] from by
            simp [encodeChar, h1, h2, h3]]
          simp only [List.cons_append, List.nil_append]
          rw [decodeBody, decodeEsc, decodeHex]
          simp [hz, hd1, hd2, hval, Char.ofNat_toNat, ih]
          rw [show c.toNat / 16 * 16 + c.toNat % 16 = c.toNat from by omega, Char.ofNat_toNat]
        · rw [show encodeChar c = [c] from by simp [encodeChar, h1, h2, h3]]
          rw [List.cons_append, List.nil_append, decodeBody]
          simp [h1, h2, ih]

/-- Serializing any string with the `json` module and parsing it back
yields the same string. -/
theorem parse_encode_roundtrip (s : String) :
    parseJsonString (encodeJsonString s) = some s := by
  have h : parseJsonString (encodeJsonString s)
      = (decodeBody ((s.data.map encodeChar).flatten ++ ['"'])).map String.mk := rfl
  rw [h, decodeBody_encode s.data]
  cases s
  rfl

/-- Claim C7: the skills and education fallbacks store the raw model
response text verbatim as a string in the `skills`/`education` fields (the
fields that hold lists of dictionaries on the primary path), and that
string survives a JSON serialize/parse round trip unchanged. -/
theorem claim_C7_fallback_raw_strings (raw : String) (st : Output) :
    lookup (fallback_extract_skills raw st) "skills" = some (JValue.str raw)
    ∧ lookup (fallback_extract_education raw st) "education" = some (JValue.str raw)
    ∧ parseJsonString (encodeJsonString raw) = some raw :=
  ⟨lookup_setKey_self st "skills" (JValue.str raw),
   lookup_setKey_self st "education" (JValue.str raw),
   parse_encode_roundtrip raw⟩

/-! ### C8 — contact lists depend only on the resume text -/

theorem isObjAt_setKey_ne (st : Output) (k k' : String) (v : JValue) (h : k' ≠ k) :
    isObjAt (setKey st k v) k' = isObjAt st k' := by
  unfold isObjAt
  rw [lookup_setKey_ne st k k' v h]

theorem isObjAt_setNested_self (st : Output) (outer k : String) (v : JValue) :
    isObjAt (setNested st outer k v) outer = isObjAt st outer := by
  unfold setNested isObjAt
  cases h : lookup st outer with
  | none => simp [h]
  | some w =>
    cases w with
    | obj inner => simp [lookup_setKey_self, h]
    | null => simp [h]
    | bool b => simp [h]
    | num n => simp [h]
    | str s => simp [h]
    | arr xs => simp [h]

theorem lookupNested_setNested_self (st : Output) (outer k : String) (v : JValue) :
    lookupNested (setNested st outer k v) outer k
      = (if isObjAt st outer = true then some v else none) := by
  unfold setNested lookupNested isObjAt
  cases h : lookup st outer with
  | none => simp [h]
  | some w =>
    cases w with
    | obj inner => simp [lookup_setKey_self, h]
    | null => simp [h]
    | bool b => simp [h]
    | num n => simp [h]
    | str s => simp [h]
    | arr xs => simp [h]

theorem lookupNested_setNested_ne_inner (st : Output) (outer k k' : String) (v : JValue)
    (h : k' ≠ k) :
    lookupNested (setNested st outer k v) outer k' = lookupNested st outer k' := by
  unfold setNested lookupNested
  cases hl : lookup st outer with
  | none => simp [hl]
  | some w =>
    cases w with
    | obj inner => simp [lookup_setKey_self, hl, lookup_setKey_ne inner k k' v h]
    | null => simp [hl]
    | bool b => simp [hl]
    | num n => simp [hl]
    | str s => simp [hl]
    | arr xs => simp [hl]

/-- The two unconditional regex writes at the end of `extract_basic_info`
pin the contact lists: their final values are a function of the resume
text and of whether `contact_info` was an object to begin with. -/
theorem extract_basic_info_contact (resume : String) (kvs : List (String × JValue))
    (st : Output) :
    lookupNested (extract_basic_info resume kvs st) "contact_info" "email_address"
      = (if isObjAt st "contact_info" = true
          then some (JValue.arr ((extract_emails resume).map JValue.str)) else none)
    ∧ lookupNested (extract_basic_info resume kvs st) "contact_info" "personal_urls"
      = (if isObjAt st "contact_info" = true
          then some (JValue.arr ((extract_github_and_linkedin_urls resume).map JValue.str))
          else none) := by
  have final : ∀ (st'' : Output) (E U : JValue),
      lookupNested (setNested (setNested st'' "contact_info" "email_address" E)
          "contact_info" "personal_urls" U) "contact_info" "email_address"
        = (if isObjAt st'' "contact_info" = true then some E else none)
      ∧ lookupNested (setNested (setNested st'' "contact_info" "email_address" E)
          "contact_info" "personal_urls" U) "contact_info" "personal_urls"
        = (if isObjAt st'' "contact_info" = true then some U else none) := by
    intro st'' E U
    constructor
    · rw [lookupNested_setNested_ne_inner _ _ _ _ _ (by decide)]
      exact lookupNested_setNested_self _ _ _ _
    · rw [lookupNested_setNested_self, isObjAt_setNested_self]
  have e1 : ∀ (st' : Output) (v : JValue),
      isObjAt (setKey st' "candidate_name" v) "contact_info" = isObjAt st' "contact_info" :=
    fun st' v => isObjAt_setKey_ne _ _ _ _ (by decide)
  have e2 : ∀ (st' : Output) (v : JValue),
      isObjAt (setKey st' "job_title" v) "contact_info" = isObjAt st' "contact_info" :=
    fun st' v => isObjAt_setKey_ne _ _ _ _ (by decide)
  have e3 : ∀ (st' : Output) (v : JValue),
      isObjAt (setKey st' "bio" v) "contact_info" = isObjAt st' "contact_info" :=
    fun st' v => isObjAt_setKey_ne _ _ _ _ (by decide)
  have htry : ∀ st' : Output,
      isObjAt (basic_try_block kvs st') "contact_info" = isObjAt st' "contact_info" := by
    intro st'
    unfold basic_try_block
    cases hn : lookup kvs "name" <;>
      cases hjt : lookup kvs "job_title" <;>
        cases hbio : lookup kvs "bio" <;>
          simp only [e1, e2, e3]
  have hopt : ∀ st' : Output,
      isObjAt (basic_optional_fields kvs st') "contact_info" = isObjAt st' "contact_info" := by
    intro st'
    unfold basic_optional_fields
    cases hl : lookup kvs "location" <;>
      cases hp : lookup kvs "phone" <;>
        simp only [isObjAt_setNested_self]
  have hobj : isObjAt (basic_optional_fields kvs (basic_try_block kvs st)) "contact_info"
      = isObjAt st "contact_info" := by
    rw [hopt, htry]
  simp only [extract_basic_info]
  rw [(final _ _ _).1, (final _ _ _).2, hobj]
  exact ⟨rfl, rfl⟩

/-- Claim C8: the e-mail and URL lists are computed from the resume text
alone — two runs of `extract_basic_info` on the same resume with different
model responses agree on both contact fields, and from the template state
they equal exactly the regex extractions. -/
theorem claim_C8_contact_lists_model_independent (resume : String) (st : Output)
    (kvs1 kvs2 : List (String × JValue)) :
    lookupNested (extract_basic_info resume kvs1 st) "contact_info" "email_address"
      = lookupNested (extract_basic_info resume kvs2 st) "contact_info" "email_address"
    ∧ lookupNested (extract_basic_info resume kvs1 st) "contact_info" "personal_urls"
      = lookupNested (extract_basic_info resume kvs2 st) "contact_info" "personal_urls"
    ∧ (∀ kvs : List (String × JValue),
        lookupNested (extract_basic_info resume kvs output_template)
            "contact_info" "email_address"
          = some (JValue.arr ((extract_emails resume).map JValue.str))
        ∧ lookupNested (extract_basic_info resume kvs output_template)
            "contact_info" "personal_urls"
          = some (JValue.arr ((extract_github_and_linkedin_urls resume).map JValue.str))) := by
  refine ⟨?_, ?_, ?_⟩
  · rw [(extract_basic_info_contact resume kvs1 st).1,
      (extract_basic_info_contact resume kvs2 st).1]
  · rw [(extract_basic_info_contact resume kvs1 st).2,
      (extract_basic_info_contact resume kvs2 st).2]
  · intro kvs
    have hobj : isObjAt output_template "contact_info" = true := rfl
    constructor
    · rw [(extract_basic_info_contact resume kvs output_template).1, hobj]
      rfl
    · rw [(extract_basic_info_contact resume kvs output_template).2, hobj]
      rfl

/-! ### C3 — partial basic-info responses -/

theorem lookup_setNested_ne_outer (st : Output) (outer k k' : String) (v : JValue)
    (h : k' ≠ outer) :
    lookup (setNested st outer k v) k' = lookup st k' := by
  unfold setNested
  cases hl : lookup st outer with
  | none => rfl
  | some w =>
    cases w with
    | obj inner => exact lookup_setKey_ne st outer k' (JValue.obj (setKey inner k v)) h
    | null => rfl
    | bool b => rfl
    | num n => rfl
    | str s => rfl
    | arr xs => rfl

/-- Fields other than `contact_info` are decided by the try-block alone:
the optional writes and the regex writes only touch `contact_info`. -/
theorem lookup_extract_basic_info_top (resume : String) (kvs : List (String × JValue))
    (st : Output) (k : String) (h : k ≠ "contact_info") :
    lookup (extract_basic_info resume kvs st) k = lookup (basic_try_block kvs st) k := by
  simp only [extract_basic_info]
  rw [lookup_setNested_ne_outer _ _ _ _ _ h, lookup_setNested_ne_outer _ _ _ _ _ h]
  unfold basic_optional_fields
  cases hl : lookup kvs "location" <;> cases hp : lookup kvs "phone" <;>
    simp only [lookup_setNested_ne_outer _ _ _ _ _ h]

/-- Counterexample to claim C3: for the response containing only
`job_title = "Engineer"`, `extract_basic_info` leaves `job_title` at its
template default `""` — it is not set to `"Engineer"` as the claim
states, because the `KeyError` on the absent `name` key aborts the whole
try-block before the `job_title` assignment runs. -/
theorem claim_C3_counterexample :
    lookup (extract_basic_info "" [("job_title", JValue.str "Engineer")] output_template)
        "job_title" = some (JValue.str "")
    ∧ some (JValue.str "") ≠ some (JValue.str "Engineer") := by
  constructor
  · rfl
  · intro h
    injection h with h1
    injection h1 with h2
    exact absurd h2 (by decide)

theorem isObjAt_basic_try_block (kvs : List (String × JValue)) (st : Output) :
    isObjAt (basic_try_block kvs st) "contact_info" = isObjAt st "contact_info" := by
  have e1 : ∀ (st' : Output) (v : JValue),
      isObjAt (setKey st' "candidate_name" v) "contact_info" = isObjAt st' "contact_info" :=
    fun st' v => isObjAt_setKey_ne _ _ _ _ (by decide)
  have e2 : ∀ (st' : Output) (v : JValue),
      isObjAt (setKey st' "job_title" v) "contact_info" = isObjAt st' "contact_info" :=
    fun st' v => isObjAt_setKey_ne _ _ _ _ (by decide)
  have e3 : ∀ (st' : Output) (v : JValue),
      isObjAt (setKey st' "bio" v) "contact_info" = isObjAt st' "contact_info" :=
    fun st' v => isObjAt_setKey_ne _ _ _ _ (by decide)
  unfold basic_try_block
  cases hn : lookup kvs "name" <;> cases hjt : lookup kvs "job_title" <;>
    cases hbio : lookup kvs "bio" <;> simp only [e1, e2, e3]

/-- A present `location` key is copied into the contact dict by the
optional writes (when the contact slot is an object, as it always is in
reachable states). -/
theorem lookupNested_basic_optional_location (kvs : List (String × JValue)) (st : Output)
    (v : JValue) (h : lookup kvs "location" = some v) :
    lookupNested (basic_optional_fields kvs st) "contact_info" "location"
      = (if isObjAt st "contact_info" = true then some v else none) := by
  unfold basic_optional_fields
  rw [h]
  cases hp : lookup kvs "phone" with
  | some w =>
    exact (lookupNested_setNested_ne_inner (setNested st "contact_info" "location" v)
        "contact_info" "phone_number" "location" w (by decide)).trans
      (lookupNested_setNested_self st "contact_info" "location" v)
  | none =>
    exact lookupNested_setNested_self st "contact_info" "location" v

/-- A present `phone` key is copied into the contact dict as
`phone_number` by the optional writes. -/
theorem lookupNested_basic_optional_phone (kvs : List (String × JValue)) (st : Output)
    (v : JValue) (h : lookup kvs "phone" = some v) :
    lookupNested (basic_optional_fields kvs st) "contact_info" "phone_number"
      = (if isObjAt st "contact_info" = true then some v else none) := by
  unfold basic_optional_fields
  rw [h]
  cases hl : lookup kvs "location" with
  | some w =>
    exact (lookupNested_setNested_self (setNested st "contact_info" "location" w)
        "contact_info" "phone_number" v).trans
      (by rw [isObjAt_setNested_self])
  | none =>
    exact lookupNested_setNested_self st "contact_info" "phone_number" v

/-- The final regex writes do not disturb `location`/`phone_number`, so a
present `location` key ends up in the record's contact dict. -/
theorem lookupNested_extract_basic_info_location (resume : String)
    (kvs : List (String × JValue)) (st : Output) (v : JValue)
    (h : lookup kvs "location" = some v) (hobj : isObjAt st "contact_info" = true) :
    lookupNested (extract_basic_info resume kvs st) "contact_info" "location" = some v := by
  simp only [extract_basic_info]
  rw [lookupNested_setNested_ne_inner _ _ _ _ _ (by decide),
    lookupNested_setNested_ne_inner _ _ _ _ _ (by decide),
    lookupNested_basic_optional_location kvs _ v h, isObjAt_basic_try_block, hobj]
  rfl

/-- Likewise a present `phone` key ends up as the record's
`phone_number`. -/
theorem lookupNested_extract_basic_info_phone (resume : String)
    (kvs : List (String × JValue)) (st : Output) (v : JValue)
    (h : lookup kvs "phone" = some v) (hobj : isObjAt st "contact_info" = true) :
    lookupNested (extract_basic_info resume kvs st) "contact_info" "phone_number" = some v := by
  simp only [extract_basic_info]
  rw [lookupNested_setNested_ne_inner _ _ _ _ _ (by decide),
    lookupNested_setNested_ne_inner _ _ _ _ _ (by decide),
    lookupNested_basic_optional_phone kvs _ v h, isObjAt_basic_try_block, hobj]
  rfl

/-- Claim C3 as amended: a basic-info response that is an object raises no
exception, and `location`/`phone` are copied into the contact dict when
present; but the three primary assignments run in the order `name`,
`job_title`, `bio`, stopping at the first absent key — every field from
the stopping point on (not merely the absent ones) keeps its previous
(template-default) value.  In particular a response without `name` leaves
all three fields untouched. -/
theorem claim_C3_amended (resume : String) (kvs : List (String × JValue)) (st : Output) :
    (basicSection (oracleWithBasic (Outcome.ok kvs)) resume st).1
        = Except.ok (extract_basic_info resume kvs st)
    ∧ (lookup kvs "name" = none →
        lookup (extract_basic_info resume kvs st) "candidate_name" = lookup st "candidate_name"
        ∧ lookup (extract_basic_info resume kvs st) "job_title" = lookup st "job_title"
        ∧ lookup (extract_basic_info resume kvs st) "bio" = lookup st "bio")
    ∧ (∀ v, lookup kvs "name" = some v → lookup kvs "job_title" = none →
        lookup (extract_basic_info resume kvs st) "candidate_name" = some v
        ∧ lookup (extract_basic_info resume kvs st) "job_title" = lookup st "job_title"
        ∧ lookup (extract_basic_info resume kvs st) "bio" = lookup st "bio")
    ∧ (∀ v w, lookup kvs "name" = some v → lookup kvs "job_title" = some w →
        lookup kvs "bio" = none →
        lookup (extract_basic_info resume kvs st) "candidate_name" = some v
        ∧ lookup (extract_basic_info resume kvs st) "job_title" = some w
        ∧ lookup (extract_basic_info resume kvs st) "bio" = lookup st "bio")
    ∧ (∀ v w u, lookup kvs "name" = some v → lookup kvs "job_title" = some w →
        lookup kvs "bio" = some u →
        lookup (extract_basic_info resume kvs st) "candidate_name" = some v
        ∧ lookup (extract_basic_info resume kvs st) "job_title" = some w
        ∧ lookup (extract_basic_info resume kvs st) "bio" = some u)
    ∧ (∀ v, lookup kvs "location" = some v → isObjAt st "contact_info" = true →
        lookupNested (extract_basic_info resume kvs st) "contact_info" "location" = some v)
    ∧ (∀ v, lookup kvs "phone" = some v → isObjAt st "contact_info" = true →
        lookupNested (extract_basic_info resume kvs st) "contact_info" "phone_number"
          = some v) := by
  have bridge : ∀ k : String, k ≠ "contact_info" →
      lookup (extract_basic_info resume kvs st) k = lookup (basic_try_block kvs st) k :=
    fun k h => lookup_extract_basic_info_top resume kvs st k h
  have bn := bridge "candidate_name" (by decide)
  have bj := bridge "job_title" (by decide)
  have bb := bridge "bio" (by decide)
  refine ⟨rfl, ?_, ?_, ?_, ?_,
    fun v h hobj => lookupNested_extract_basic_info_location resume kvs st v h hobj,
    fun v h hobj => lookupNested_extract_basic_info_phone resume kvs st v h hobj⟩
  · intro hn
    rw [bn, bj, bb]
    unfold basic_try_block
    rw [hn]
    exact ⟨rfl, rfl, rfl⟩
  · intro v hn hjt
    rw [bn, bj, bb]
    unfold basic_try_block
    rw [hn, hjt]
    exact ⟨lookup_setKey_self _ _ _,
      lookup_setKey_ne _ _ _ _ (by decide),
      lookup_setKey_ne _ _ _ _ (by decide)⟩
  · intro v w hn hjt hbio
    rw [bn, bj, bb]
    unfold basic_try_block
    rw [hn, hjt, hbio]
    refine ⟨?_, ?_, ?_⟩
    · rw [lookup_setKey_ne _ _ _ _ (by decide)]
      exact lookup_setKey_self _ _ _
    · exact lookup_setKey_self _ _ _
    · rw [lookup_setKey_ne _ _ _ _ (by decide), lookup_setKey_ne _ _ _ _ (by decide)]
  · intro v w u hn hjt hbio
    rw [bn, bj, bb]
    unfold basic_try_block
    rw [hn, hjt, hbio]
    refine ⟨?_, ?_, ?_⟩
    · rw [lookup_setKey_ne _ _ _ _ (by decide), lookup_setKey_ne _ _ _ _ (by decide)]
      exact lookup_setKey_self _ _ _
    · rw [lookup_setKey_ne _ _ _ _ (by decide)]
      exact lookup_setKey_self _ _ _
    · exact lookup_setKey_self _ _ _

/-- Witness for the amended C3 at concrete inputs: the response
`job_title = "Engineer"` leaves all three primary fields at their
template defaults, and a present `location`/`phone` pair is copied into
the contact dict. -/
theorem claim_C3_amended_witness :
    (lookup (extract_basic_info "" [("job_title", JValue.str "Engineer")] output_template)
        "candidate_name" = lookup output_template "candidate_name"
    ∧ lookup (extract_basic_info "" [("job_title", JValue.str "Engineer")] output_template)
        "job_title" = lookup output_template "job_title"
    ∧ lookup (extract_basic_info "" [("job_title", JValue.str "Engineer")] output_template)
        "bio" = lookup output_template "bio")
    ∧ lookupNested (extract_basic_info ""
        [("location", JValue.str "Paris"), ("phone", JValue.str "555")] output_template)
        "contact_info" "location" = some (JValue.str "Paris")
    ∧ lookupNested (extract_basic_info ""
        [("location", JValue.str "Paris"), ("phone", JValue.str "555")] output_template)
        "contact_info" "phone_number" = some (JValue.str "555") :=
  ⟨(claim_C3_amended "" [("job_title", JValue.str "Engineer")] output_template).2.1 rfl,
   (claim_C3_amended "" [("location", JValue.str "Paris"), ("phone", JValue.str "555")]
      output_template).2.2.2.2.2.1 (JValue.str "Paris") rfl rfl,
   (claim_C3_amended "" [("location", JValue.str "Paris"), ("phone", JValue.str "555")]
      output_template).2.2.2.2.2.2 (JValue.str "555") rfl rfl⟩

/-! ### C4 — work-experience fallback: one enumeration call, one
structured call per surviving line -/

theorem lookup_appendWork (st : Output) (v : JValue) (xs : List JValue)
    (h : lookup st "work_output" = some (JValue.arr xs)) :
    lookup (appendWork st v) "work_output" = some (JValue.arr (xs ++ [v])) := by
  unfold appendWork
  rw [h]
  exact lookup_setKey_self _ _ _

theorem fallback_we_core_spec (oS : Nat → Outcome JValue) (vs : Nat → JValue)
    (hok : ∀ i, oS i = Outcome.ok (vs i)) :
    ∀ (lines : List String) (i : Nat) (st : Output) (init : List JValue),
      lookup st "work_output" = some (JValue.arr init) →
      (fallback_we_core oS lines i st).2
          = (lines.filter lineKeep).map
              (fun l => Call.structCall (rstrip (firstField l)) (roleField l))
      ∧ ∃ st', (fallback_we_core oS lines i st).1 = Except.ok st'
          ∧ lookup st' "work_output" = some (JValue.arr (init ++
              (List.range ((lines.filter lineKeep).length)).map (fun j => vs (i + j)))) := by
  intro lines
  induction lines with
  | nil =>
    intro i st init h
    exact ⟨rfl, st, rfl, by simpa using h⟩
  | cons line rest ih =>
    intro i st init h
    by_cases ha : containsAnswer line
    · have hk : lineKeep line = false := by simp [lineKeep, ha]
      have := ih i st init h
      simpa [fallback_we_core, ha, List.filter_cons, hk] using this
    · by_cases hc : rstrip ((pySplit ',' line).head?.getD "") = ""
      · have hk : lineKeep line = false := by simp [lineKeep, ha, firstField, hc]
        have := ih i st init h
        simpa [fallback_we_core, ha, hc, List.filter_cons, hk] using this
      · have hk : lineKeep line = true := by simp [lineKeep, ha, firstField, hc]
        have happ : lookup (appendWork st (vs i)) "work_output"
            = some (JValue.arr (init ++ [vs i])) := lookup_appendWork st (vs i) init h
        obtain ⟨hcalls, st', hst', hwo⟩ := ih (i + 1) (appendWork st (vs i)) (init ++ [vs i]) happ
        have hfil : List.filter lineKeep (line :: rest) = line :: List.filter lineKeep rest := by
          simp [List.filter_cons, hk]
        have hred : fallback_we_core oS (line :: rest) i st
            = ((fallback_we_core oS rest (i + 1) (appendWork st (vs i))).1,
                Call.structCall (rstrip ((pySplit ',' line).head?.getD "")) (roleField line)
                  :: (fallback_we_core oS rest (i + 1) (appendWork st (vs i))).2) := by
          simp only [fallback_we_core, if_neg ha, if_neg hc, hok i]
          rfl
        refine ⟨?_, st', ?_, ?_⟩
        · rw [hred]
          rw [show ((fallback_we_core oS rest (i + 1) (appendWork st (vs i))).1,
              Call.structCall (rstrip ((pySplit ',' line).head?.getD "")) (roleField line)
                :: (fallback_we_core oS rest (i + 1) (appendWork st (vs i))).2).2
              = Call.structCall (rstrip ((pySplit ',' line).head?.getD "")) (roleField line)
                :: (fallback_we_core oS rest (i + 1) (appendWork st (vs i))).2 from rfl]
          rw [hcalls, hfil, List.map_cons]
          rfl
        · rw [hred]
          exact hst'
        · rw [hwo, hfil, List.length_cons]
          congr 1
          rw [List.range_succ_eq_map, List.map_cons, List.map_map, List.append_assoc,
            List.singleton_append]
          simp only [Nat.add_zero]
          congr 1
          congr 1
          congr 1
          apply List.map_congr_left
          intro j _
          simp only [Function.comp_apply]
          congr 1
          omega

/-- Claim C4: for an enumeration response `text` whose per-company calls
all succeed, the work-experience fallback makes exactly one enumeration
call followed by exactly one structured call per surviving line (first
comma field non-empty after trailing-whitespace removal, no
case-insensitive "answer" in the line — skipped lines contribute zero
calls), a missing second field yielding the empty role, and appends each
parsed result to the work-experience list in order. -/
theorem claim_C4_work_fallback_calls (text : String) (oS : Nat → Outcome JValue)
    (vs : Nat → JValue) (st : Output) (init : List JValue)
    (hok : ∀ i, oS i = Outcome.ok (vs i))
    (hwo : lookup st "work_output" = some (JValue.arr init)) :
    (fallback_extract_work_experience (TOutcome.ok text) oS st).2
        = Call.enumCall :: (validLinesSpec text).map (fun p => Call.structCall p.1 p.2)
    ∧ ∃ st', (fallback_extract_work_experience (TOutcome.ok text) oS st).1 = Except.ok st'
        ∧ lookup st' "work_output" = some (JValue.arr (init ++
            (List.range (validLinesSpec text).length).map vs)) := by
  obtain ⟨hcalls, st', hst', hwo'⟩ :=
    fallback_we_core_spec oS vs hok (pySplit '\n' text) 0 st init hwo
  constructor
  · simp only [fallback_extract_work_experience]
    rw [hcalls]
    simp [validLinesSpec, List.map_map, Function.comp]
  · refine ⟨st', ?_, ?_⟩
    · simp only [fallback_extract_work_experience]
      exact hst'
    · rw [hwo']
      have hlen : (validLinesSpec text).length
          = ((pySplit '\n' text).filter lineKeep).length := by
        simp [validLinesSpec]
      have hmap : (List.range (((pySplit '\n' text).filter lineKeep).length)).map
            (fun j => vs (0 + j))
          = (List.range ((validLinesSpec text).length)).map vs := by
        rw [hlen]
        apply List.map_congr_left
        intro j _
        rw [Nat.zero_add]
      rw [hmap]

/-- Witness for C4 on a concrete enumeration response exercising a kept
line, an instruction echo, an empty-company line, and a line with no
second field. -/
theorem claim_C4_witness :
    (fallback_extract_work_experience
        (TOutcome.ok "Acme, Engineer\nHere is the answer:\n  , Dev\nBeta")
        (fun _ => Outcome.ok (JValue.obj [])) output_template).2
      = Call.enumCall :: (validLinesSpec "Acme, Engineer\nHere is the answer:\n  , Dev\nBeta").map
          (fun p => Call.structCall p.1 p.2) :=
  (claim_C4_work_fallback_calls "Acme, Engineer\nHere is the answer:\n  , Dev\nBeta"
    (fun _ => Outcome.ok (JValue.obj [])) (fun _ => JValue.obj []) output_template []
    (fun _ => rfl) rfl).1

/-! ### C6 — the record's top-level shape is invariant -/

theorem keys_setKey_tpl (st : Output) (k : String) (v : JValue)
    (hk : k ∈ keyList output_template) (h : keyList st = keyList output_template) :
    keyList (setKey st k v) = keyList output_template := by
  rw [keyList_setKey_mem st k v (by rw [h]; exact hk), h]

theorem keys_basic_try_block (kvs : List (String × JValue)) (st : Output)
    (h : keyList st = keyList output_template) :
    keyList (basic_try_block kvs st) = keyList output_template := by
  unfold basic_try_block
  cases hn : lookup kvs "name" with
  | none => exact h
  | some v =>
    cases hjt : lookup kvs "job_title" with
    | none => exact keys_setKey_tpl _ _ _ (by decide) h
    | some v2 =>
      cases hbio : lookup kvs "bio" with
      | none =>
        exact keys_setKey_tpl _ _ _ (by decide) (keys_setKey_tpl _ _ _ (by decide) h)
      | some v3 =>
        exact keys_setKey_tpl _ _ _ (by decide)
          (keys_setKey_tpl _ _ _ (by decide) (keys_setKey_tpl _ _ _ (by decide) h))

theorem keys_extract_basic_info (resume : String) (kvs : List (String × JValue))
    (st : Output) (h : keyList st = keyList output_template) :
    keyList (extract_basic_info resume kvs st) = keyList output_template := by
  simp only [extract_basic_info]
  rw [keyList_setNested, keyList_setNested]
  unfold basic_optional_fields
  cases hl : lookup kvs "location" <;> cases hp : lookup kvs "phone" <;>
    simp only [keyList_setNested] <;> exact keys_basic_try_block kvs st h

theorem keys_extract_skills (kvs : List (String × JValue)) (st st' : Output)
    (h : keyList st = keyList output_template) (hok : extract_skills kvs st = Except.ok st') :
    keyList st' = keyList output_template := by
  unfold extract_skills at hok
  cases hs : lookup kvs "skills" with
  | none => rw [hs] at hok; cases hok
  | some v =>
    rw [hs] at hok
    have h1 : keyList (setKey st "skills" v) = keyList output_template :=
      keys_setKey_tpl _ _ _ (by decide) h
    cases hpd : lookup kvs "professional_development" <;> rw [hpd] at hok <;>
      cases hoth : lookup kvs "other" <;> rw [hoth] at hok <;>
        injection hok with hout <;> subst hout
    · exact h1
    · exact keys_setKey_tpl _ _ _ (by decide) h1
    · exact keys_setKey_tpl _ _ _ (by decide) h1
    · exact keys_setKey_tpl _ _ _ (by decide) (keys_setKey_tpl _ _ _ (by decide) h1)

theorem keys_fallback_we_core (oS : Nat → Outcome JValue) :
    ∀ (lines : List String) (i : Nat) (st out : Output),
      (fallback_we_core oS lines i st).1 = Except.ok out → keyList out = keyList st := by
  intro lines
  induction lines with
  | nil =>
    intro i st out h
    injection h with h1
    rw [← h1]
  | cons line rest ih =>
    intro i st out h
    by_cases ha : containsAnswer line
    · rw [show fallback_we_core oS (line :: rest) i st = fallback_we_core oS rest i st from by
        simp only [fallback_we_core, if_pos ha]] at h
      exact ih i st out h
    · by_cases hc : rstrip ((pySplit ',' line).head?.getD "") = ""
      · rw [show fallback_we_core oS (line :: rest) i st = fallback_we_core oS rest i st from by
          simp only [fallback_we_core, if_neg ha, if_pos hc]] at h
        exact ih i st out h
      · cases hs : oS i with
        | ok v =>
          rw [show (fallback_we_core oS (line :: rest) i st).1
              = (fallback_we_core oS rest (i + 1) (appendWork st v)).1 from by
            simp only [fallback_we_core, if_neg ha, if_neg hc, hs]] at h
          rw [ih (i + 1) (appendWork st v) out h, keyList_appendWork]
        | timeout =>
          rw [show (fallback_we_core oS (line :: rest) i st).1 = Except.error Fatal.timeout from by
            simp only [fallback_we_core, if_neg ha, if_neg hc, hs]] at h
          cases h
        | malformed =>
          rw [show (fallback_we_core oS (line :: rest) i st).1 = Except.error Fatal.malformed from by
            simp only [fallback_we_core, if_neg ha, if_neg hc, hs]] at h
          cases h
        | apiError =>
          rw [show (fallback_we_core oS (line :: rest) i st).1 = Except.error Fatal.apiError from by
            simp only [fallback_we_core, if_neg ha, if_neg hc, hs]] at h
          cases h

theorem keys_fallback_work (enum : TOutcome) (oS : Nat → Outcome JValue) (st out : Output)
    (h : (fallback_extract_work_experience enum oS st).1 = Except.ok out) :
    keyList out = keyList st := by
  cases enum with
  | ok text =>
    exact keys_fallback_we_core oS (pySplit '\n' text) 0 st out h
  | timeout => cases h
  | apiError => cases h

theorem lookup_isSome_of_mem (st : Output) (k : String) (h : k ∈ keyList st) :
    ∃ v, lookup st k = some v := by
  induction st with
  | nil => simp [keyList] at h
  | cons p rest ih =>
    by_cases hp : p.1 = k
    · exact ⟨p.2, by simp [lookup, hp]⟩
    · rw [keyList_cons] at h
      cases List.mem_cons.mp h with
      | inl h1 => exact absurd h1.symm hp
      | inr h1 =>
        obtain ⟨v, hv⟩ := ih h1
        exact ⟨v, by simp [lookup, hp, hv]⟩

theorem seqSection_ok (first : Except Fatal Output × List Event)
    (next : Output → Except Fatal Output × List Event) (out : Output) (evs : List Event)
    (h : seqSection first next = (Except.ok out, evs)) :
    ∃ st1 evs1 evs2, first = (Except.ok st1, evs1)
      ∧ next st1 = (Except.ok out, evs2) ∧ evs = evs1 ++ evs2 := by
  match hf : first with
  | (Except.error e, evs1) =>
    unfold seqSection at h
    injection h with h1 h2
    exact Except.noConfusion h1
  | (Except.ok st1, evs1) =>
    have h' : ((next st1).1, evs1 ++ (next st1).2) = (Except.ok out, evs) := h
    match hn : next st1 with
    | (r1, r2) =>
      rw [hn] at h'
      injection h' with h1 h2
      exact ⟨st1, evs1, r2, rfl, by rw [hn]; exact congrArg (fun x => (x, r2)) h1, h2.symm⟩

theorem keys_basicSection (o : Oracle) (resume : String) (st out : Output) (evs : List Event)
    (h : basicSection o resume st = (Except.ok out, evs))
    (hk : keyList st = keyList output_template) :
    keyList out = keyList output_template := by
  unfold basicSection at h
  cases hb : o.basic <;> rw [hb] at h
  case ok kvs =>
    injection h with h1 h2
    injection h1 with h1
    rw [← h1]
    exact keys_extract_basic_info resume kvs st hk
  all_goals cases h

theorem keys_workSection (o : Oracle) (st out : Output) (evs : List Event)
    (h : workSection o st = (Except.ok out, evs))
    (hk : keyList st = keyList output_template) :
    keyList out = keyList output_template := by
  unfold workSection at h
  cases hw : o.work <;> rw [hw] at h
  case ok objs =>
    injection h with h1 h2
    injection h1 with h1
    rw [← h1]
    unfold extract_work_experience
    exact keys_setKey_tpl _ _ _ (by decide) hk
  case timeout =>
    injection h with h1 h2
    rw [keys_fallback_work o.workEnum o.workStruct st out h1, hk]
  all_goals cases h

theorem keys_skillsSection (o : Oracle) (st out : Output) (evs : List Event)
    (h : skillsSection o st = (Except.ok out, evs))
    (hk : keyList st = keyList output_template) :
    keyList out = keyList output_template := by
  unfold skillsSection at h
  cases hs : o.skills <;> rw [hs] at h
  case ok kvs =>
    have h' : (extract_skills kvs st, [Event.primarySkills]) = (Except.ok out, evs) := h
    match he : extract_skills kvs st with
    | Except.ok st' =>
      rw [he] at h'
      injection h' with h1 h2
      injection h1 with h1
      rw [← h1]
      exact keys_extract_skills kvs st st' hk he
    | Except.error e =>
      rw [he] at h'
      injection h' with h1 h2
      exact Except.noConfusion h1
  case timeout =>
    cases hf : o.skillsFallback <;> rw [hf] at h
    case ok raw =>
      injection h with h1 h2
      injection h1 with h1
      rw [← h1]
      exact keys_setKey_tpl _ _ _ (by decide) hk
    all_goals cases h
  all_goals cases h

theorem keys_eduSection (o : Oracle) (st out : Output) (evs : List Event)
    (h : eduSection o st = (Except.ok out, evs))
    (hk : keyList st = keyList output_template) :
    keyList out = keyList output_template := by
  unfold eduSection at h
  cases hs : o.education <;> rw [hs] at h
  case ok objs =>
    injection h with h1 h2
    injection h1 with h1
    rw [← h1]
    unfold extract_education
    exact keys_setKey_tpl _ _ _ (by decide) hk
  case timeout =>
    cases hf : o.educationFallback <;> rw [hf] at h
    case ok raw =>
      injection h with h1 h2
      injection h1 with h1
      rw [← h1]
      exact keys_setKey_tpl _ _ _ (by decide) hk
    all_goals cases h
  all_goals cases h

/-- Claim C6: every extraction and fallback step preserves the record's
top-level key set, and a successful run started from the template ends
with exactly the template's keys, every one of them present (absent model
keys leave fields at their values rather than deleting them). -/
theorem claim_C6_record_shape_invariant :
    (∀ (resume : String) (kvs : List (String × JValue)) (st : Output),
        keyList st = keyList output_template →
        keyList (extract_basic_info resume kvs st) = keyList output_template)
    ∧ (∀ (kvs : List (String × JValue)) (st st' : Output),
        keyList st = keyList output_template → extract_skills kvs st = Except.ok st' →
        keyList st' = keyList output_template)
    ∧ (∀ (raw : String) (st : Output), keyList st = keyList output_template →
        keyList (fallback_extract_skills raw st) = keyList output_template)
    ∧ (∀ (objs : List JValue) (st : Output), keyList st = keyList output_template →
        keyList (extract_education objs st) = keyList output_template)
    ∧ (∀ (raw : String) (st : Output), keyList st = keyList output_template →
        keyList (fallback_extract_education raw st) = keyList output_template)
    ∧ (∀ (objs : List JValue) (st : Output), keyList st = keyList output_template →
        keyList (extract_work_experience objs st) = keyList output_template)
    ∧ (∀ (enum : TOutcome) (oS : Nat → Outcome JValue) (st out : Output),
        keyList st = keyList output_template →
        (fallback_extract_work_experience enum oS st).1 = Except.ok out →
        keyList out = keyList output_template)
    ∧ (∀ (o : Oracle) (resume : String) (out : Output) (evs : List Event),
        process_file o resume output_template = (Except.ok out, evs) →
        keyList out = keyList output_template
        ∧ ∀ k, k ∈ keyList output_template → ∃ v, lookup out k = some v) := by
  refine ⟨keys_extract_basic_info, keys_extract_skills, ?_, ?_, ?_, ?_, ?_, ?_⟩
  · intro raw st h
    exact keys_setKey_tpl _ _ _ (by decide) h
  · intro objs st h
    exact keys_setKey_tpl _ _ _ (by decide) h
  · intro raw st h
    exact keys_setKey_tpl _ _ _ (by decide) h
  · intro objs st h
    exact keys_setKey_tpl _ _ _ (by decide) h
  · intro enum oS st out h hok
    rw [keys_fallback_work enum oS st out hok, h]
  · intro o resume out evs hrun
    have hkeys : keyList out = keyList output_template := by
      unfold process_file at hrun
      obtain ⟨st1, e1, e1', hb, hrest, _⟩ := seqSection_ok _ _ _ _ hrun
      obtain ⟨st2, e2, e2', hw, hrest2, _⟩ := seqSection_ok _ _ _ _ hrest
      obtain ⟨st3, e3, e3', hs, hedu, _⟩ := seqSection_ok _ _ _ _ hrest2
      have k1 := keys_basicSection o resume output_template st1 e1 hb rfl
      have k2 := keys_workSection o st1 st2 e2 hw k1
      have k3 := keys_skillsSection o st2 st3 e3 hs k2
      exact keys_eduSection o st3 out e3' hedu k3
    exact ⟨hkeys, fun k hk => lookup_isSome_of_mem out k (by rw [hkeys]; exact hk)⟩

/-- Witness for C6: a concrete fallback step from the template state, and
the end-to-end all-ok run, both keep exactly the template's keys. -/
theorem claim_C6_witness :
    keyList (fallback_extract_skills "Python, SQL" output_template) = keyList output_template :=
  claim_C6_record_shape_invariant.2.2.1 "Python, SQL" output_template rfl

/-! ### C1 and C2 — run order, fallback-on-timeout-only, fatal errors -/

theorem extract_skills_isOk (kvs : List (String × JValue)) (st : Output) (v : JValue)
    (h : lookup kvs "skills" = some v) :
    ∃ st', extract_skills kvs st = Except.ok st' := by
  unfold extract_skills
  rw [h]
  exact ⟨_, rfl⟩

set_option maxHeartbeats 2000000 in
/-- The anatomy of one `process_file` run, proved once and shared by the
order/fallback claims: events are strictly ordered by section rank (so
each primary and each fallback happens at most once, in the fixed order);
each of the three guarded sections falls back exactly when its primary
outcome is a timeout; any non-timeout failure of a section is fatal and
stops all later sections; any failure of the unguarded basic-info call
(timeout included) aborts the run immediately. -/
theorem process_file_anatomy (o : Oracle) (resume : String) :
    List.Sorted (· < ·) (((process_file o resume output_template).2).map rank)
    ∧ (Event.fallbackWork ∈ (process_file o resume output_template).2 ↔
        (Event.primaryWork ∈ (process_file o resume output_template).2
          ∧ o.work = Outcome.timeout))
    ∧ (Event.fallbackSkills ∈ (process_file o resume output_template).2 ↔
        (Event.primarySkills ∈ (process_file o resume output_template).2
          ∧ o.skills = Outcome.timeout))
    ∧ (Event.fallbackEducation ∈ (process_file o resume output_template).2 ↔
        (Event.primaryEducation ∈ (process_file o resume output_template).2
          ∧ o.education = Outcome.timeout))
    ∧ (o.work = Outcome.malformed →
        Event.primaryWork ∈ (process_file o resume output_template).2 →
        (process_file o resume output_template).1 = Except.error Fatal.malformed
          ∧ Event.primarySkills ∉ (process_file o resume output_template).2)
    ∧ (o.work = Outcome.apiError →
        Event.primaryWork ∈ (process_file o resume output_template).2 →
        (process_file o resume output_template).1 = Except.error Fatal.apiError
          ∧ Event.primarySkills ∉ (process_file o resume output_template).2)
    ∧ (o.skills = Outcome.malformed →
        Event.primarySkills ∈ (process_file o resume output_template).2 →
        (process_file o resume output_template).1 = Except.error Fatal.malformed
          ∧ Event.primaryEducation ∉ (process_file o resume output_template).2)
    ∧ (o.skills = Outcome.apiError →
        Event.primarySkills ∈ (process_file o resume output_template).2 →
        (process_file o resume output_template).1 = Except.error Fatal.apiError
          ∧ Event.primaryEducation ∉ (process_file o resume output_template).2)
    ∧ (∀ kvs : List (String × JValue), o.skills = Outcome.ok kvs →
        lookup kvs "skills" = none →
        Event.primarySkills ∈ (process_file o resume output_template).2 →
        (process_file o resume output_template).1 = Except.error Fatal.keyError
          ∧ Event.primaryEducation ∉ (process_file o resume output_template).2)
    ∧ (o.education = Outcome.malformed →
        Event.primaryEducation ∈ (process_file o resume output_template).2 →
        (process_file o resume output_template).1 = Except.error Fatal.malformed)
    ∧ (o.education = Outcome.apiError →
        Event.primaryEducation ∈ (process_file o resume output_template).2 →
        (process_file o resume output_template).1 = Except.error Fatal.apiError)
    ∧ (o.basic = Outcome.malformed →
        process_file o resume output_template
          = (Except.error Fatal.malformed, [Event.primaryBasic]))
    ∧ (o.basic = Outcome.apiError →
        process_file o resume output_template
          = (Except.error Fatal.apiError, [Event.primaryBasic]))
    ∧ (o.basic = Outcome.timeout →
        process_file o resume output_template
          = (Except.error Fatal.timeout, [Event.primaryBasic])) := by
  cases hb : o.basic with
  | timeout =>
    simp_all [process_file, seqSection, basicSection, rank]
  | malformed =>
    simp_all [process_file, seqSection, basicSection, rank]
  | apiError =>
    simp_all [process_file, seqSection, basicSection, rank]
  | ok kvs =>
    cases hw : o.work with
    | malformed =>
      simp_all [process_file, seqSection, basicSection, workSection, rank]
    | apiError =>
      simp_all [process_file, seqSection, basicSection, workSection, rank]
    | ok objs =>
      cases hs : o.skills with
      | malformed =>
        simp_all [process_file, seqSection, basicSection, workSection, skillsSection, rank]
      | apiError =>
        simp_all [process_file, seqSection, basicSection, workSection, skillsSection, rank]
      | timeout =>
        cases hsf : o.skillsFallback with
        | ok raw =>
          cases he : o.education with
          | ok objs2 =>
            simp_all [process_file, seqSection, basicSection, workSection, skillsSection,
              eduSection, rank]
          | malformed =>
            simp_all [process_file, seqSection, basicSection, workSection, skillsSection,
              eduSection, rank]
          | apiError =>
            simp_all [process_file, seqSection, basicSection, workSection, skillsSection,
              eduSection, rank]
          | timeout =>
            cases hef : o.educationFallback <;>
              simp_all [process_file, seqSection, basicSection, workSection, skillsSection,
                eduSection, rank]
        | timeout =>
          simp_all [process_file, seqSection, basicSection, workSection, skillsSection, rank]
        | apiError =>
          simp_all [process_file, seqSection, basicSection, workSection, skillsSection, rank]
      | ok kvs2 =>
        cases hsk : lookup kvs2 "skills" with
        | none =>
          have hes : extract_skills kvs2
              (extract_work_experience objs (extract_basic_info resume kvs output_template))
              = Except.error Fatal.keyError := by
            unfold extract_skills
            rw [hsk]
          simp_all [process_file, seqSection, basicSection, workSection, skillsSection, rank]
        | some v =>
          obtain ⟨st3, hes⟩ := extract_skills_isOk kvs2
            (extract_work_experience objs (extract_basic_info resume kvs output_template)) v hsk
          cases he : o.education with
          | ok objs2 =>
            simp_all [process_file, seqSection, basicSection, workSection, skillsSection,
              eduSection, rank]
          | malformed =>
            simp_all [process_file, seqSection, basicSection, workSection, skillsSection,
              eduSection, rank]
          | apiError =>
            simp_all [process_file, seqSection, basicSection, workSection, skillsSection,
              eduSection, rank]
          | timeout =>
            cases hef : o.educationFallback <;>
              simp_all [process_file, seqSection, basicSection, workSection, skillsSection,
                eduSection, rank]
    | timeout =>
      cases hres : (fallback_extract_work_experience o.workEnum o.workStruct
          (extract_basic_info resume kvs output_template)).1 with
      | error e =>
        simp_all [process_file, seqSection, basicSection, workSection, rank]
      | ok st2 =>
        cases hs : o.skills with
        | malformed =>
          simp_all [process_file, seqSection, basicSection, workSection, skillsSection, rank]
        | apiError =>
          simp_all [process_file, seqSection, basicSection, workSection, skillsSection, rank]
        | timeout =>
          cases hsf : o.skillsFallback with
          | ok raw =>
            cases he : o.education with
            | ok objs2 =>
              simp_all [process_file, seqSection, basicSection, workSection, skillsSection,
                eduSection, rank]
            | malformed =>
              simp_all [process_file, seqSection, basicSection, workSection, skillsSection,
                eduSection, rank]
            | apiError =>
              simp_all [process_file, seqSection, basicSection, workSection, skillsSection,
                eduSection, rank]
            | timeout =>
              cases hef : o.educationFallback <;>
                simp_all [process_file, seqSection, basicSection, workSection, skillsSection,
                  eduSection, rank]
          | timeout =>
            simp_all [process_file, seqSection, basicSection, workSection, skillsSection, rank]
          | apiError =>
            simp_all [process_file, seqSection, basicSection, workSection, skillsSection, rank]
        | ok kvs2 =>
          cases hsk : lookup kvs2 "skills" with
          | none =>
            have hes : extract_skills kvs2 st2 = Except.error Fatal.keyError := by
              unfold extract_skills
              rw [hsk]
            simp_all [process_file, seqSection, basicSection, workSection, skillsSection, rank]
          | some v =>
            obtain ⟨st3, hes⟩ := extract_skills_isOk kvs2 st2 v hsk
            cases he : o.education with
            | ok objs2 =>
              simp_all [process_file, seqSection, basicSection, workSection, skillsSection,
                eduSection, rank]
            | malformed =>
              simp_all [process_file, seqSection, basicSection, workSection, skillsSection,
                eduSection, rank]
            | apiError =>
              simp_all [process_file, seqSection, basicSection, workSection, skillsSection,
                eduSection, rank]
            | timeout =>
              cases hef : o.educationFallback <;>
                simp_all [process_file, seqSection, basicSection, workSection, skillsSection,
                  eduSection, rank]

/-- Claim C1: sections run in the fixed order basic info, work
experience, skills, education (strictly increasing ranks, hence each
primary/fallback at most once); for the guarded sections a fallback runs
exactly when the primary outcome is a timeout; and any non-timeout
exception — malformed JSON, a missing required key, another API failure —
propagates and terminates the whole run, skipping all later sections. -/
theorem claim_C1_run_order_and_fallback (o : Oracle) (resume : String) :
    List.Sorted (· < ·) (((process_file o resume output_template).2).map rank)
    ∧ (Event.fallbackWork ∈ (process_file o resume output_template).2 ↔
        (Event.primaryWork ∈ (process_file o resume output_template).2
          ∧ o.work = Outcome.timeout))
    ∧ (Event.fallbackSkills ∈ (process_file o resume output_template).2 ↔
        (Event.primarySkills ∈ (process_file o resume output_template).2
          ∧ o.skills = Outcome.timeout))
    ∧ (Event.fallbackEducation ∈ (process_file o resume output_template).2 ↔
        (Event.primaryEducation ∈ (process_file o resume output_template).2
          ∧ o.education = Outcome.timeout))
    ∧ (o.work = Outcome.malformed →
        Event.primaryWork ∈ (process_file o resume output_template).2 →
        (process_file o resume output_template).1 = Except.error Fatal.malformed
          ∧ Event.primarySkills ∉ (process_file o resume output_template).2)
    ∧ (o.work = Outcome.apiError →
        Event.primaryWork ∈ (process_file o resume output_template).2 →
        (process_file o resume output_template).1 = Except.error Fatal.apiError
          ∧ Event.primarySkills ∉ (process_file o resume output_template).2)
    ∧ (o.skills = Outcome.malformed →
        Event.primarySkills ∈ (process_file o resume output_template).2 →
        (process_file o resume output_template).1 = Except.error Fatal.malformed
          ∧ Event.primaryEducation ∉ (process_file o resume output_template).2)
    ∧ (o.skills = Outcome.apiError →
        Event.primarySkills ∈ (process_file o resume output_template).2 →
        (process_file o resume output_template).1 = Except.error Fatal.apiError
          ∧ Event.primaryEducation ∉ (process_file o resume output_template).2)
    ∧ (∀ kvs : List (String × JValue), o.skills = Outcome.ok kvs →
        lookup kvs "skills" = none →
        Event.primarySkills ∈ (process_file o resume output_template).2 →
        (process_file o resume output_template).1 = Except.error Fatal.keyError
          ∧ Event.primaryEducation ∉ (process_file o resume output_template).2)
    ∧ (o.education = Outcome.malformed →
        Event.primaryEducation ∈ (process_file o resume output_template).2 →
        (process_file o resume output_template).1 = Except.error Fatal.malformed)
    ∧ (o.education = Outcome.apiError →
        Event.primaryEducation ∈ (process_file o resume output_template).2 →
        (process_file o resume output_template).1 = Except.error Fatal.apiError)
    ∧ (o.basic = Outcome.malformed →
        process_file o resume output_template
          = (Except.error Fatal.malformed, [Event.primaryBasic]))
    ∧ (o.basic = Outcome.apiError →
        process_file o resume output_template
          = (Except.error Fatal.apiError, [Event.primaryBasic])) :=
  let h := process_file_anatomy o resume
  ⟨h.1, h.2.1, h.2.2.1, h.2.2.2.1, h.2.2.2.2.1, h.2.2.2.2.2.1, h.2.2.2.2.2.2.1,
    h.2.2.2.2.2.2.2.1, h.2.2.2.2.2.2.2.2.1, h.2.2.2.2.2.2.2.2.2.1,
    h.2.2.2.2.2.2.2.2.2.2.1, h.2.2.2.2.2.2.2.2.2.2.2.1, h.2.2.2.2.2.2.2.2.2.2.2.2.1⟩

/-- Witness for C1: with a primary work-experience timeout the work
fallback ran, and the skills fallback did not. -/
theorem claim_C1_witness :
    Event.fallbackWork ∈ (process_file oracleWorkTimeout "" output_template).2
    ∧ Event.fallbackSkills ∉ (process_file oracleWorkTimeout "" output_template).2 :=
  ⟨(claim_C1_run_order_and_fallback oracleWorkTimeout "").2.1.mpr ⟨by decide, rfl⟩,
   fun hmem =>
     Outcome.noConfusion ((claim_C1_run_order_and_fallback oracleWorkTimeout "").2.2.1.mp hmem).2⟩

/-- Counterexample to claim C2: the basic-info section has no fallback at
all — when its primary call times out, the run aborts at once with the
uncaught timeout, with no fallback of any kind having run. -/
theorem claim_C2_counterexample :
    process_file (oracleWithBasic Outcome.timeout) "" output_template
      = (Except.error Fatal.timeout, [Event.primaryBasic]) := rfl

/-- Claim C2 as amended: only the three guarded sections (work
experience, skills, education) follow the two-state primary/fallback
pattern with the fallback triggered exactly on timeout; the basic-info
section is unguarded, and a timeout during its primary attempt aborts the
whole run instead of triggering a fallback. -/
theorem claim_C2_amended_three_sections (o : Oracle) (resume : String) :
    (Event.fallbackWork ∈ (process_file o resume output_template).2 ↔
        (Event.primaryWork ∈ (process_file o resume output_template).2
          ∧ o.work = Outcome.timeout))
    ∧ (Event.fallbackSkills ∈ (process_file o resume output_template).2 ↔
        (Event.primarySkills ∈ (process_file o resume output_template).2
          ∧ o.skills = Outcome.timeout))
    ∧ (Event.fallbackEducation ∈ (process_file o resume output_template).2 ↔
        (Event.primaryEducation ∈ (process_file o resume output_template).2
          ∧ o.education = Outcome.timeout))
    ∧ (o.basic = Outcome.timeout →
        process_file o resume output_template
          = (Except.error Fatal.timeout, [Event.primaryBasic])) :=
  let h := process_file_anatomy o resume
  ⟨h.2.1, h.2.2.1, h.2.2.2.1, h.2.2.2.2.2.2.2.2.2.2.2.2.2⟩

/-- Witness for the amended C2 at a concrete basic-info timeout. -/
theorem claim_C2_amended_witness :
    process_file (oracleWithBasic Outcome.timeout) "resume text" output_template
      = (Except.error Fatal.timeout, [Event.primaryBasic]) :=
  (claim_C2_amended_three_sections (oracleWithBasic Outcome.timeout) "resume text").2.2.2 rfl

end ResumeParser
